import Mathlib

/-!
Verification of the pinocchio-pubkey crate (`src/sdk/pubkey/src/lib.rs`).

The crate re-exports an external compile-time base58 decoder
(`five8_const::decode_32_const`), wraps it as `from_str`, and provides two
code-generation helpers: `pubkey!` (a literal-constant expansion) and
`declare_id!` (which expands to a constant `ID`, a predicate `check_id`, and
an accessor `id`).

A public key is a 32-byte array; we model bytes as `Nat` values below 256
produced by the decoder, and a key as a `List Nat`.  Fallible compile-time
decoding is modelled as an `Option`-returning total function: `none` is the
build-time rejection, `some` the produced constant.
-/

/-- The base58 alphabet (Bitcoin style: no 0, O, I, l), as listed in the
spec's external-interface section. -/
def BASE58_ALPHABET : List Char :=
  [ '1', '2', '3', '4', '5', '6', '7', '8', '9',
    'A', 'B', 'C', 'D', 'E', 'F', 'G', 'H', 'J', 'K', 'L', 'M', 'N',
    'P', 'Q', 'R', 'S', 'T', 'U', 'V', 'W', 'X', 'Y', 'Z',
    'a', 'b', 'c', 'd', 'e', 'f', 'g', 'h', 'i', 'j', 'k', 'm', 'n',
    'o', 'p', 'q', 'r', 's', 't', 'u', 'v', 'w', 'x', 'y', 'z' ]

/-- Value of a single base58 character: its index in the alphabet, or `none`
for a character outside the alphabet. -/
def b58Digit (c : Char) : Option Nat :=
  BASE58_ALPHABET.indexOf? c

/-- Value of a little-endian list of base58 digits (head is the least
significant digit); `none` if any character is outside the alphabet. -/
def b58Value : List Char → Option Nat
  | [] => some 0
  | c :: cs =>
    match b58Digit c, b58Value cs with
    | some d, some n => some (n * 58 + d)
    | _, _ => none

/-- Value of a base58 string read left-to-right as a big-endian base-58
number. -/
def b58ValueBE (cs : List Char) : Option Nat :=
  b58Value cs.reverse

/-- Number of leading `'1'` characters; each encodes one leading zero byte. -/
def leadingOnes : List Char → Nat
  | '1' :: cs => leadingOnes cs + 1
  | _ => 0

/-- Little-endian bytes of `n` (no leading zeros), with an explicit fuel
bound.  With `fuel ≥` the digit count of the source string the fuel is never
exhausted, since a value below `58 ^ len` is below `256 ^ len`. -/
def natBytesLE (fuel : Nat) (n : Nat) : List Nat :=
  match fuel with
  | 0 => []
  | fuel + 1 => if n = 0 then [] else (n % 256) :: natBytesLE fuel (n / 256)

/-- Modelled from the spec: the external decoder `five8_const::decode_32_const`
(out of scope of the repository, "treated as an imported pure function
`decode32(input: String) -> FixedBytes[32] | DecodeFailure`").  Standard
base58 decoding: leading `'1'` characters become leading zero bytes, the rest
is the big-endian byte expansion of the base-58 value; the input is rejected
(`none`) when a character is outside the alphabet or the decoded length is
not exactly 32. -/
def decode_32_const (s : String) : Option (List Nat) :=
  match b58ValueBE s.toList with
  | none => none
  | some n =>
    let bytes := List.replicate (leadingOnes s.toList) 0 ++
      (natBytesLE s.toList.length n).reverse
    if bytes.length = 32 then some bytes else none

/-- `from_str` from `src/sdk/pubkey/src/lib.rs`: delegates to
`decode_32_const`. -/
def from_str (value : String) : Option (List Nat) :=
  decode_32_const value

/-- Expansion of the `pubkey!` macro: `pubkey!($id)` expands to
`$crate::from_str($id)`. -/
def pubkey_expansion (s : String) : Option (List Nat) :=
  from_str s

/-- The spec-side description of the literal-constant generator (section 4.2):
"produce a constant-context expression equivalent to calling the Decoder
Adapter on that literal". -/
def decoderAdapterCall (s : String) : Option (List Nat) :=
  decode_32_const s

/-- The three artifacts produced by one `declare_id!` expansion site:
the constant `ID`, the predicate `check_id`, and the accessor `id`. -/
structure DeclaredIdentity where
  ID : List Nat
  check_id : List Nat → Bool
  id : List Nat

/-- Expansion of `declare_id!($id)`: `ID` is `from_str($id)`, `check_id`
compares its argument with `ID` byte-wise (`id == &ID`), and `id()` returns
`ID`.  The expansion only exists when the literal decodes (otherwise the
caller's build fails). -/
def declare_id (s : String) : Option DeclaredIdentity :=
  match from_str s with
  | none => none
  | some pk => some { ID := pk, check_id := fun c => c == pk, id := pk }

/-- The all-zero 32-byte key, the decoding of the canonical literal
`"11111111111111111111111111111111"`. -/
def zeroKey : List Nat := List.replicate 32 0

/-- The decoding of `"9WzDXwBbmkg8ZTbNMqUxvQRAyrZzDsGYdLVL9zYtAWWM"`. -/
def otherKey : List Nat :=
  [126, 140, 8, 135, 96, 191, 222, 29, 221, 207, 50, 193, 127, 32, 155, 130,
   66, 238, 82, 170, 241, 49, 250, 205, 136, 208, 234, 44, 109, 11, 6, 242]

/-- The identity declared from `"11111111111111111111111111111111"`
(the expansion in the crate's `test_declare_id_macro`). -/
def zeroIdentity : DeclaredIdentity :=
  { ID := zeroKey, check_id := fun c => c == zeroKey, id := zeroKey }

/-- The decoded byte length of a base58 literal (leading zero bytes plus the
big-endian expansion of the value), or `none` when a character is outside the
alphabet. -/
def decodedLength (s : String) : Option Nat :=
  match b58ValueBE s.toList with
  | none => none
  | some n => some (leadingOnes s.toList + (natBytesLE s.toList.length n).length)

/-- Modelled from the spec: the failure condition of section 4.1 — "if the
input is not valid base58, or decodes to a length other than 32, compilation
must fail".  True exactly for the literals the spec says are rejected at
build time. -/
def rejectedLiteral (s : String) : Bool :=
  match decodedLength s with
  | none => true
  | some len => len != 32

/-- Helper: a produced key always has exactly 32 bytes (the decoder's final
length check). -/
theorem from_str_length (s : String) (pk : List Nat) (h : from_str s = some pk) :
    pk.length = 32 := by
  unfold from_str decode_32_const at h
  cases hv : b58ValueBE s.toList with
  | none => rw [hv] at h; exact absurd h (by simp)
  | some n =>
    rw [hv] at h
    dsimp only at h
    split at h
    · cases h; assumption
    · exact absurd h (by simp)

/-- Helper: decoding fails exactly on the literals the spec rejects — those
that are not valid base58 or decode to a length other than 32. -/
theorem from_str_none_iff (s : String) :
    from_str s = none ↔ rejectedLiteral s = true := by
  unfold from_str decode_32_const rejectedLiteral decodedLength
  cases hv : b58ValueBE s.toList with
  | none => simp
  | some n =>
    dsimp only
    by_cases hlen : leadingOnes s.data + (natBytesLE s.length n).length = 32
    · rw [if_pos (by
        simp only [List.length_append, List.length_replicate, List.length_reverse]
        exact hlen)]
      simp [hlen]
    · rw [if_neg (by
        simp only [List.length_append, List.length_replicate, List.length_reverse]
        exact hlen)]
      simp [bne_iff_ne, hlen]

/-- Helper: the exact shape of a successful `declare_id!` expansion. -/
theorem declare_id_spec (s : String) (d : DeclaredIdentity) (h : declare_id s = some d) :
    from_str s = some d.ID ∧ (∀ c, d.check_id c = (c == d.ID)) ∧ d.id = d.ID := by
  unfold declare_id at h
  cases hf : from_str s with
  | none => rw [hf] at h; exact absurd h (by simp)
  | some pk =>
    rw [hf] at h
    injection h with h
    subst h
    exact ⟨rfl, fun c => rfl, rfl⟩

/-- C1: No runtime error path exists: for EVERY string `s` — valid or not —
decoding fails (the build-time `none` rejection, never a panic value) exactly
when `s` is not valid base58 or decodes to a length other than 32, and every
key that is produced has exactly 32 bytes; under any declared identity,
`check_id` always returns a boolean and `id()` always returns the constant —
neither can fail at runtime for any input. -/
theorem no_runtime_error_path (s t : String) (d : DeclaredIdentity) (c : List Nat)
    (h : declare_id t = some d) :
    (from_str s = none ↔ rejectedLiteral s = true) ∧
    ((from_str s).all fun pk => pk.length == 32) = true ∧
    (d.check_id c = true ∨ d.check_id c = false) ∧ d.id = d.ID := by
  refine ⟨from_str_none_iff s, ?_, ?_, (declare_id_spec t d h).2.2⟩
  · cases hf : from_str s with
    | none => rfl
    | some pk =>
      simp only [Option.all_some, beq_iff_eq]
      exact from_str_length s pk hf
  · cases hb : d.check_id c with
    | true => exact Or.inl rfl
    | false => exact Or.inr rfl

theorem no_runtime_error_path_witness :
    (from_str "not-base58-0OIl" = none ↔ rejectedLiteral "not-base58-0OIl" = true) ∧
    ((from_str "not-base58-0OIl").all fun pk => pk.length == 32) = true ∧
    (zeroIdentity.check_id zeroKey = true ∨ zeroIdentity.check_id zeroKey = false) ∧
    zeroIdentity.id = zeroIdentity.ID :=
  no_runtime_error_path "not-base58-0OIl" "11111111111111111111111111111111"
    zeroIdentity zeroKey rfl

/-- C2: For every declared identity and every candidate key, `check_id`
returns `true` iff the candidate is byte-wise equal to the generated constant
`ID` — exact byte comparison, no normalization or partial matching. -/
theorem check_id_iff_byte_equal (s : String) (d : DeclaredIdentity) (c : List Nat)
    (h : declare_id s = some d) : d.check_id c = true ↔ c = d.ID := by
  rw [(declare_id_spec s d h).2.1 c]
  exact beq_iff_eq

theorem check_id_iff_byte_equal_witness :
    zeroIdentity.check_id zeroKey = true ↔ zeroKey = zeroIdentity.ID :=
  check_id_iff_byte_equal "11111111111111111111111111111111" zeroIdentity zeroKey rfl

/-- C3: For every declared identity, `check_id(&id())` returns `true`,
unconditionally. -/
theorem check_id_of_id_true (s : String) (d : DeclaredIdentity)
    (h : declare_id s = some d) : d.check_id d.id = true := by
  obtain ⟨-, hc, hid⟩ := declare_id_spec s d h
  rw [hc, hid]
  exact beq_self_eq_true d.ID

theorem check_id_of_id_true_witness : zeroIdentity.check_id zeroIdentity.id = true :=
  check_id_of_id_true "11111111111111111111111111111111" zeroIdentity rfl

/-- C4: Declaring an identity from `"11111111111111111111111111111111"`
yields `ID` equal to the all-zero 32-byte value; `check_id` of that all-zero
value is `true`; and `check_id` of the decoding of
`"9WzDXwBbmkg8ZTbNMqUxvQRAyrZzDsGYdLVL9zYtAWWM"` is `false`. -/
theorem declare_id_concrete_scenario :
    declare_id "11111111111111111111111111111111" = some zeroIdentity ∧
    zeroIdentity.ID = List.replicate 32 0 ∧
    zeroIdentity.check_id (List.replicate 32 0) = true ∧
    from_str "9WzDXwBbmkg8ZTbNMqUxvQRAyrZzDsGYdLVL9zYtAWWM" = some otherKey ∧
    zeroIdentity.check_id otherKey = false :=
  ⟨rfl, rfl, by decide, rfl, by decide⟩

/-- C5: The literal-constant expansion `pubkey!(s)` is `from_str(s)`, which
equals the imported decoder `decode_32_const(s)`; the macro performs no logic
of its own and coincides with calling the decoder adapter directly. -/
theorem pubkey_macro_delegates (s : String) :
    pubkey_expansion s = from_str s ∧ from_str s = decode_32_const s ∧
    pubkey_expansion s = decoderAdapterCall s :=
  ⟨rfl, rfl, rfl⟩

/-- C6: For two distinct valid literals whose decodings differ, `check_id`
under the identity declared from the first literal returns `false` on the
decoding of the second. -/
theorem check_id_distinct_literal_false (s1 s2 : String) (d : DeclaredIdentity)
    (p1 p2 : List Nat) (hne : s1 ≠ s2) (h1 : from_str s1 = some p1)
    (hd : declare_id s1 = some d) (h2 : from_str s2 = some p2)
    (hdiff : p1 ≠ p2) : d.check_id p2 = false := by
  obtain ⟨hID, hc, -⟩ := declare_id_spec s1 d hd
  rw [h1] at hID
  injection hID with hID
  rw [hc p2]
  exact beq_eq_false_iff_ne.mpr fun hcontra => hdiff (hID ▸ hcontra.symm)

theorem check_id_distinct_literal_false_witness : zeroIdentity.check_id otherKey = false :=
  check_id_distinct_literal_false "11111111111111111111111111111111"
    "9WzDXwBbmkg8ZTbNMqUxvQRAyrZzDsGYdLVL9zYtAWWM" zeroIdentity zeroKey otherKey
    (by decide) rfl rfl rfl (by decide)

/-- C7: Every successfully decoded base58 string yields a public key of
exactly 32 bytes. -/
theorem from_str_returns_32_bytes (s : String) (pk : List Nat)
    (h : from_str s = some pk) : pk.length = 32 :=
  from_str_length s pk h

theorem from_str_returns_32_bytes_witness : zeroKey.length = 32 :=
  from_str_returns_32_bytes "11111111111111111111111111111111" zeroKey rfl

/-- C8: Decoding is deterministic: repeated evaluation of `from_str` on the
same literal yields equal values, and any two expansion sites declaring an
identity from the same literal produce bit-identical `ID` constants. -/
theorem from_str_deterministic (s : String) (d1 d2 : DeclaredIdentity)
    (h1 : declare_id s = some d1) (h2 : declare_id s = some d2) :
    from_str s = from_str s ∧ d1.ID = d2.ID := by
  refine ⟨rfl, ?_⟩
  rw [h1] at h2
  injection h2 with h2
  rw [h2]

theorem from_str_deterministic_witness :
    from_str "11111111111111111111111111111111" = from_str "11111111111111111111111111111111" ∧
    zeroIdentity.ID = zeroIdentity.ID :=
  from_str_deterministic "11111111111111111111111111111111" zeroIdentity zeroIdentity rfl rfl

/-- C9: For every declared identity, the accessor `id()` returns a copy of
the constant `ID`: `id() = ID` on every invocation. -/
theorem id_returns_copy_of_ID (s : String) (d : DeclaredIdentity)
    (h : declare_id s = some d) : d.id = d.ID :=
  (declare_id_spec s d h).2.2

theorem id_returns_copy_of_ID_witness : zeroIdentity.id = zeroIdentity.ID :=
  id_returns_copy_of_ID "11111111111111111111111111111111" zeroIdentity rfl

/-- C10: The identity-declaration generator takes a base58 text literal and
expands into exactly the three artifacts of `DeclaredIdentity`: the constant
`ID` (the decoding of the literal), the predicate `check_id` (byte equality
against `ID`), and the accessor `id` (returning `ID`). -/
theorem declare_id_three_artifacts (s : String) (d : DeclaredIdentity)
    (h : declare_id s = some d) :
    from_str s = some d.ID ∧ (∀ c, d.check_id c = (c == d.ID)) ∧ d.id = d.ID :=
  declare_id_spec s d h

theorem declare_id_three_artifacts_witness :
    from_str "11111111111111111111111111111111" = some zeroIdentity.ID ∧
    zeroIdentity.check_id zeroKey = (zeroKey == zeroIdentity.ID) ∧
    zeroIdentity.id = zeroIdentity.ID :=
  ⟨(declare_id_three_artifacts "11111111111111111111111111111111" zeroIdentity rfl).1,
   (declare_id_three_artifacts "11111111111111111111111111111111" zeroIdentity rfl).2.1 zeroKey,
   (declare_id_three_artifacts "11111111111111111111111111111111" zeroIdentity rfl).2.2⟩
